import Mathlib

/-!
Verification of the real-time inventory synchronization pipeline of the
AI-DRIVEN-WAREHOUSE repository, shallowly embedded in Lean.

The embedding follows the TypeScript source:
* the client-side normalizer and socket handlers (the `AppProvider` component:
  `getStatusFromQuantity`, `findValue`, the `inventory_update` handler and the
  `connect` / `connect_error` / `disconnect` handlers), and
* the server-side Source Reader (`readExcelData` in `server.ts`).

JavaScript scalar cell values are modelled by `JSVal` (string or number);
JavaScript numbers that may be NaN are modelled by `Option ℚ`, with `none`
playing the role of NaN (the only NaN source in this pipeline is `Number(s)`
on a non-numeric string). `Number(s)` on strings is modelled for decimal
numeric literals (optional sign, digits, optional fraction part, after
whitespace trimming, empty trimmed string giving 0); every other string maps
to `none` (NaN). This covers all values the pipeline's spreadsheet cells
decode to.
-/

/-- A JavaScript scalar cell value as produced by decoding a sheet row:
either a string or a (non-NaN) number. -/
inductive JSVal where
  | str (s : String)
  | num (q : ℚ)
  deriving DecidableEq, Repr

/-- A raw decoded row: column labels paired with cell values, in the
JavaScript object's key insertion order (the order `Object.keys` reports). -/
abbrev RawRow := List (String × JSVal)

/-- JavaScript truthiness of a scalar: the empty string and the number 0 are
falsy, everything else here is truthy. -/
def JSVal.truthy : JSVal → Bool
  | .str s => !s.toList.isEmpty
  | .num q => decide (q ≠ 0)

/-- ASCII lowercasing of one character, modelling JS `toLowerCase` on the
ASCII column labels this pipeline sees. -/
def charLower (c : Char) : Char :=
  if 'A' ≤ c && c ≤ 'Z' then Char.ofNat (c.toNat + 32) else c

/-- The whitespace characters stripped by JS `trim` that can occur in
spreadsheet labels and cells. -/
def isJSWhitespace (c : Char) : Bool :=
  c == ' ' || c == '\t' || c == '\n' || c == '\r'

/-- JS `trim`: drop leading and trailing whitespace. -/
def trimChars (cs : List Char) : List Char :=
  ((cs.dropWhile isJSWhitespace).reverse.dropWhile isJSWhitespace).reverse

/-- `k.toLowerCase().trim()` — the key normalization applied before alias
lookup. -/
def jsKey (k : String) : String :=
  ⟨trimChars (k.toList.map charLower)⟩

/-- `v || d` for an optionally-present JavaScript value `v` (absent = JS
`undefined`, which is falsy): the value itself when present and truthy,
otherwise the default `d`. -/
def jsOr (v : Option JSVal) (d : JSVal) : JSVal :=
  match v with
  | some w => if w.truthy then w else d
  | none => d

/-- Digits-to-number accumulator for a run of decimal digit characters. -/
def digitsToNat (cs : List Char) : ℕ :=
  cs.foldl (fun a c => 10 * a + (c.toNat - 48)) 0

/-- Parse an unsigned decimal literal (`digits`, `digits.digits`, `.digits`,
`digits.`); any other shape is not numeric (`none`). -/
def parseDec (cs : List Char) : Option ℚ :=
  match cs.span (·.isDigit) with
  | (intPart, []) =>
      if intPart.isEmpty then none else some (digitsToNat intPart)
  | (intPart, '.' :: rest) =>
      if rest.all (·.isDigit) && (!intPart.isEmpty || !rest.isEmpty) then
        some ((digitsToNat intPart : ℚ) + (digitsToNat rest : ℚ) / (10 ^ rest.length))
      else none
  | _ => none

/-- JavaScript `Number(s)` on a string, modelled for decimal numeric
literals: whitespace is trimmed, the empty trimmed string converts to 0, a
signed decimal literal converts to its value, and anything else is NaN
(`none`). -/
def parseJSNumber (s : String) : Option ℚ :=
  match trimChars s.toList with
  | [] => some 0
  | '-' :: rest => (parseDec rest).map (fun q => -q)
  | '+' :: rest => parseDec rest
  | cs => parseDec cs

/-- JavaScript `Number(v)` on a scalar: a number converts to itself, a string
is parsed as a numeric literal (NaN = `none` when it is not one). -/
def jsNumber : JSVal → Option ℚ
  | .num q => some q
  | .str s => parseJSNumber s

/-- Smallest exponent `k ≤ d` with `d ∣ 10 ^ k`, when the denominator `d` has
only the prime factors 2 and 5 (always the case for values this pipeline
parses from decimal literals). -/
def pow10Exp (d : ℕ) : Option ℕ :=
  (List.range (d + 1)).find? (fun k => (10 ^ k) % d == 0)

/-- JavaScript decimal rendering of a rational: integers in plain decimal,
finite decimals with a fraction point (the reduced form has no trailing
zeros, matching JS float printing); a rational with an infinite decimal
expansion cannot arise from this pipeline's inputs and is rendered as a
fraction. -/
def ratToJSString (q : ℚ) : String :=
  let sign := if q.num < 0 then "-" else ""
  if q.den = 1 then sign ++ Nat.repr q.num.natAbs
  else
    match pow10Exp q.den with
    | some k =>
        let scaled := q.num.natAbs * ((10 ^ k) / q.den)
        let s := Nat.repr scaled
        let s := if s.length ≤ k then String.mk (List.replicate (k + 1 - s.length) '0') ++ s else s
        sign ++ s.dropRight k ++ "." ++ s.takeRight k
    | none => sign ++ Nat.repr q.num.natAbs ++ "/" ++ Nat.repr q.den

/-- JavaScript `String(v)` on a scalar. -/
def jsString : JSVal → String
  | .str s => s
  | .num q => ratToJSString q

/-- The product status enumeration (`ProductStatus` in `types.ts`). -/
inductive ProductStatus where
  | inStock
  | lowStock
  | outOfStock
  deriving DecidableEq, Repr

/-- `getStatusFromQuantity` from the client (`AppProvider`): quantity 0 is
OutOfStock, quantities up to 50 are LowStock, larger ones InStock. A NaN
quantity (`none`) fails both JS comparisons and yields InStock, as in the
source. -/
def getStatusFromQuantity (quantity : Option ℚ) : ProductStatus :=
  match quantity with
  | none => .inStock
  | some q => if q = 0 then .outOfStock else if q ≤ 50 then .lowStock else .inStock

/-- The canonical `Product` record built by the client normalizer. Numeric
fields are JS numbers (`Option ℚ`, `none` = NaN). -/
structure Product where
  id : String
  name : String
  category : String
  quantity : Option ℚ
  price : Option ℚ
  supplier : String
  status : ProductStatus
  dateAdded : String
  deriving DecidableEq, Repr

/-- Whether row key `k` matches the alias list: `keys.includes(k.toLowerCase().trim())`. -/
def keyMatches (aliases : List String) (k : String) : Bool :=
  aliases.contains (jsKey k)

/-- `findValue` from the `inventory_update` handler: scan the row's own keys
in their enumeration order and return the value of the first key whose
lowercased, trimmed form is in the alias list; `none` (JS `undefined`) when
no key matches. -/
def findValue (aliases : List String) (item : RawRow) : Option JSVal :=
  (item.find? (fun kv => keyMatches aliases kv.1)).map (fun kv => kv.2)

def idAliases : List String := ["id", "pid", "product id", "item id"]

def nameAliases : List String := ["name", "product name", "item name", "product"]

def categoryAliases : List String := ["category", "type", "group"]

def quantityAliases : List String := ["quantity", "qty", "stock", "amount"]

def priceAliases : List String := ["price", "cost", "unit price", "rate"]

def supplierAliases : List String := ["supplier", "vendor", "source", "manufacturer"]

def dateAliases : List String := ["dateadded", "date", "added", "created"]

/-- `String(findValue(aliases) || d)` for a string-typed field with default `d`. -/
def coerceStr (v : Option JSVal) (d : String) : String :=
  jsString (jsOr v (.str d))

/-- `Number(findValue(aliases) || 0)` for a numeric field: the default 0
replaces only a falsy or absent matched value, then JS `Number` conversion
is applied (possibly producing NaN). -/
def coerceNum (v : Option JSVal) : Option ℚ :=
  jsNumber (jsOr v (.num 0))

/-- The per-row mapping inside the `inventory_update` handler: resolve each
canonical field from the row via `findValue`, apply the `|| default`
coercions, and derive `status` from the coerced quantity. `today` is the
current date string (`new Date().toISOString().split` at `T`). -/
def normalizeRow (today : String) (item : RawRow) : Product :=
  let quantity := coerceNum (findValue quantityAliases item)
  { id := coerceStr (findValue idAliases item) ""
    name := coerceStr (findValue nameAliases item) "Unknown Product"
    category := coerceStr (findValue categoryAliases item) "Uncategorized"
    quantity := quantity
    price := coerceNum (findValue priceAliases item)
    supplier := coerceStr (findValue supplierAliases item) "Unknown Supplier"
    status := getStatusFromQuantity quantity
    dateAdded := coerceStr (findValue dateAliases item) today }

/-- A payload delivered to the `inventory_update` socket handler: either a
JS array of raw rows, or any non-array value (rejected by the
`Array.isArray` guard). -/
inductive Payload where
  | arr (rows : List RawRow)
  | nonArr
  deriving Repr

/-- The client's `inventory_update` handler as a state transformer on the
local product list: a non-array payload returns early; an array is mapped
through the normalizer and replaces local state only when the mapped list is
non-empty. -/
def handleInventoryUpdate (today : String) (payload : Payload) (prev : List Product) : List Product :=
  match payload with
  | .nonArr => prev
  | .arr rows =>
      let syncedProducts := rows.map (normalizeRow today)
      if syncedProducts.length > 0 then syncedProducts else prev

/-- Socket lifecycle events consumed by the client. -/
inductive SocketEvent where
  | connect
  | connectError
  | disconnect
  deriving DecidableEq, Repr

/-- The client's connection-state handlers as a transition function on the
`isSynced` boolean: `connect` sets it true, `connect_error` and `disconnect`
set it false. -/
def stepIsSynced : SocketEvent → Bool → Bool
  | .connect, _ => true
  | .connectError, _ => false
  | .disconnect, _ => false

/-- The watched file's condition as observed by one call of the server's
Source Reader: the path is absent, the bytes fail to decode as a workbook,
or they decode to a list of raw rows. -/
inductive SourceState where
  | missing
  | decodeError (msg : String)
  | table (rows : List RawRow)
  deriving Repr

/-- `readExcelData` from `server.ts`: a missing path returns `[]` before any
read; a decode failure is caught by the surrounding try/catch and `[]` is
returned; a successful decode returns the first sheet's rows. Totality of
this Lean function is the no-raise property. -/
def readExcelData : SourceState → List RawRow
  | .missing => []
  | .decodeError _ => []
  | .table rows => rows

/-! Projection lemmas for the normalizer, and small helpers shared by the
claim theorems. -/

theorem normalizeRow_id (today : String) (row : RawRow) :
    (normalizeRow today row).id = coerceStr (findValue idAliases row) "" := rfl

theorem normalizeRow_name (today : String) (row : RawRow) :
    (normalizeRow today row).name = coerceStr (findValue nameAliases row) "Unknown Product" := rfl

theorem normalizeRow_category (today : String) (row : RawRow) :
    (normalizeRow today row).category = coerceStr (findValue categoryAliases row) "Uncategorized" := rfl

theorem normalizeRow_quantity (today : String) (row : RawRow) :
    (normalizeRow today row).quantity = coerceNum (findValue quantityAliases row) := rfl

theorem normalizeRow_price (today : String) (row : RawRow) :
    (normalizeRow today row).price = coerceNum (findValue priceAliases row) := rfl

theorem normalizeRow_supplier (today : String) (row : RawRow) :
    (normalizeRow today row).supplier = coerceStr (findValue supplierAliases row) "Unknown Supplier" := rfl

theorem normalizeRow_status (today : String) (row : RawRow) :
    (normalizeRow today row).status
      = getStatusFromQuantity (coerceNum (findValue quantityAliases row)) := rfl

theorem normalizeRow_dateAdded (today : String) (row : RawRow) :
    (normalizeRow today row).dateAdded = coerceStr (findValue dateAliases row) today := rfl

/-- The numeric coercion in closed form: absent or falsy matched values give
0, truthy ones go through JS `Number` conversion. -/
theorem coerceNum_eq (v : Option JSVal) :
    coerceNum v =
      match v with
      | none => some 0
      | some w => if w.truthy then jsNumber w else some 0 := by
  cases v with
  | none => rfl
  | some w =>
      by_cases h : w.truthy
      · simp [coerceNum, jsOr, h]
      · simp [coerceNum, jsOr, h, jsNumber]

/-- `find?` skips an entry whose key does not match the alias list. -/
theorem findValue_skip (aliases : List String) (pre post : RawRow) (k : String) (v : JSVal)
    (h : keyMatches aliases k = false) :
    findValue aliases (pre ++ (k, v) :: post) = findValue aliases (pre ++ post) := by
  induction pre with
  | nil => simp [findValue, List.find?_cons, h]
  | cons p ps ih =>
      by_cases hp : keyMatches aliases p.1 = true
      · simp [findValue, List.find?_cons, hp]
      · have hp' : keyMatches aliases p.1 = false := by simpa using hp
        simpa [findValue, List.find?_cons, hp'] using ih

/-! Claim theorems. -/

/-- Claim C1, counterexample: on the spec's own example row, the price cell
holding the string of a dollar sign with 12.50 does not coerce to 0 — the
`|| 0` default only replaces falsy values, and JS `Number` on this truthy
non-numeric string is NaN (`none`). -/
theorem c1_price_dollar_counterexample :
    (normalizeRow "2024-01-01"
        [("product", JSVal.str "Gadget"), ("stock", JSVal.str "75"),
         ("Price", JSVal.str "$12.50")]).price ≠ some 0 := by decide

/-- Claim C1 (amended): the numeric coercion of quantity and price yields 0
exactly when the matched value is absent or falsy; a truthy matched value
goes through JS `Number` conversion, which is NaN (`none`) — not 0 — on a
non-numeric string such as the dollar-sign price, as on the spec's example
row. -/
theorem c1_numeric_coercion (today : String) (row : RawRow) :
    ((normalizeRow today row).quantity =
      match findValue quantityAliases row with
      | none => some 0
      | some v => if v.truthy then jsNumber v else some 0)
  ∧ ((normalizeRow today row).price =
      match findValue priceAliases row with
      | none => some 0
      | some v => if v.truthy then jsNumber v else some 0)
  ∧ (normalizeRow today
        [("product", JSVal.str "Gadget"), ("stock", JSVal.str "75"),
         ("Price", JSVal.str "$12.50")]).price = none := by
  refine ⟨?_, ?_, ?_⟩
  · rw [normalizeRow_quantity, coerceNum_eq]
  · rw [normalizeRow_price, coerceNum_eq]
  · rw [normalizeRow_price]; decide

/-- Claim C1, witness for the amended theorem at a concrete row. -/
theorem c1_numeric_coercion_witness :
    ((normalizeRow "2024-01-01" [("QTY", JSVal.str "75")]).quantity =
      match findValue quantityAliases [("QTY", JSVal.str "75")] with
      | none => some 0
      | some v => if v.truthy then jsNumber v else some 0)
  ∧ ((normalizeRow "2024-01-01" [("QTY", JSVal.str "75")]).price =
      match findValue priceAliases [("QTY", JSVal.str "75")] with
      | none => some 0
      | some v => if v.truthy then jsNumber v else some 0)
  ∧ (normalizeRow "2024-01-01"
        [("product", JSVal.str "Gadget"), ("stock", JSVal.str "75"),
         ("Price", JSVal.str "$12.50")]).price = none :=
  c1_numeric_coercion "2024-01-01" [("QTY", JSVal.str "75")]

/-- Claim C2, counterexample: with both a qty and a quantity key present, the
handler picks whichever key comes first in the row's own key order, not the
alias-precedence order — the two key orders give different results, and the
qty-first row does not yield the quantity-key value 10. -/
theorem c2_alias_order_counterexample :
    (normalizeRow "2024-01-01"
        [("qty", JSVal.str "5"), ("quantity", JSVal.str "10")]).quantity = some 5
  ∧ (normalizeRow "2024-01-01"
        [("quantity", JSVal.str "10"), ("qty", JSVal.str "5")]).quantity = some 10
  ∧ (some (5 : ℚ) ≠ some (10 : ℚ)) := by decide

/-- Claim C2 (amended): `findValue` resolves a field to the value of the
first key in the row's own key enumeration order whose lowercased, trimmed
form is any accepted alias of the field; resolution therefore depends on the
order of the row's keys, not on the position of the alias in the alias
list. -/
theorem c2_row_key_order (aliases : List String) (pre post : RawRow) (k : String) (v : JSVal)
    (hk : keyMatches aliases k = true)
    (hpre : ∀ p ∈ pre, keyMatches aliases p.1 = false) :
    findValue aliases (pre ++ (k, v) :: post) = some v := by
  induction pre with
  | nil => simp [findValue, List.find?_cons, hk]
  | cons p ps ih =>
      have hp : keyMatches aliases p.1 = false := hpre p (by simp)
      have hps : ∀ q ∈ ps, keyMatches aliases q.1 = false :=
        fun q hq => hpre q (by simp [hq])
      simpa [findValue, List.find?_cons, hp] using ih hps

/-- Claim C2, witness: in a row listing a name key, then qty, then quantity,
the qty entry is the one resolved. -/
theorem c2_row_key_order_witness :
    findValue quantityAliases
      ([("Name", JSVal.str "Widget")] ++ ("qty", JSVal.str "5") :: [("quantity", JSVal.str "10")])
      = some (JSVal.str "5") :=
  c2_row_key_order quantityAliases [("Name", JSVal.str "Widget")]
    [("quantity", JSVal.str "10")] "qty" (JSVal.str "5") (by decide) (by decide)

/-- Claim C3 (confirmed): `getStatusFromQuantity` is total on quantities and
assigns exactly one of the three statuses to every integer quantity q ≥ 0:
OutOfStock exactly at q = 0, LowStock exactly for 0 < q ≤ 50 (so q = 50 is
LowStock), InStock exactly for q > 50 (so q = 51 is InStock). -/
theorem c3_status_totality (q : ℤ) (hq : 0 ≤ q) :
    (getStatusFromQuantity (some (q : ℚ)) = ProductStatus.outOfStock ↔ q = 0)
  ∧ (getStatusFromQuantity (some (q : ℚ)) = ProductStatus.lowStock ↔ 0 < q ∧ q ≤ 50)
  ∧ (getStatusFromQuantity (some (q : ℚ)) = ProductStatus.inStock ↔ 50 < q) := by
  have h0 : ((q : ℚ) = 0) ↔ q = 0 := by exact_mod_cast Iff.rfl
  have h50 : ((q : ℚ) ≤ 50) ↔ q ≤ 50 := by exact_mod_cast Iff.rfl
  simp only [getStatusFromQuantity]
  by_cases hz : (q : ℚ) = 0
  · have hz' : q = 0 := h0.mp hz
    simp [hz, hz']
  · have hz' : ¬ q = 0 := fun h => hz (h0.mpr h)
    by_cases hle : (q : ℚ) ≤ 50
    · have hle' : q ≤ 50 := h50.mp hle
      simp only [hz, if_false, hle, if_true]
      refine ⟨by simp [hz'], by simp [hz', hle']; omega, by simp; omega⟩
    · have hle' : ¬ q ≤ 50 := fun h => hle (h50.mpr h)
      simp only [hz, if_false, hle, if_true]
      refine ⟨by simp [hz'], by simp; omega, by simp; omega⟩

/-- Claim C3, witness at the boundary quantity 51. -/
theorem c3_status_totality_witness :
    (0 : ℤ) ≤ 51
  ∧ ((getStatusFromQuantity (some ((51 : ℤ) : ℚ)) = ProductStatus.outOfStock ↔ (51 : ℤ) = 0)
  ∧ (getStatusFromQuantity (some ((51 : ℤ) : ℚ)) = ProductStatus.lowStock ↔ (0 : ℤ) < 51 ∧ (51 : ℤ) ≤ 50)
  ∧ (getStatusFromQuantity (some ((51 : ℤ) : ℚ)) = ProductStatus.inStock ↔ (50 : ℤ) < 51)) :=
  ⟨by decide, c3_status_totality 51 (by decide)⟩

/-- Claim C4 (confirmed): a sequence-shaped payload with a non-empty row
list replaces the client's local record set with exactly the normalized rows
of the payload (a total replacement), while the empty sequence leaves the
pre-existing local set entirely unchanged. -/
theorem c4_snapshot_replacement (today : String) (rows : List RawRow) (prev : List Product) :
    (rows ≠ [] →
      handleInventoryUpdate today (Payload.arr rows) prev = rows.map (normalizeRow today))
  ∧ handleInventoryUpdate today (Payload.arr []) prev = prev := by
  constructor
  · intro h
    simp [handleInventoryUpdate, List.length_pos, h]
  · rfl

/-- Claim C4, witness: a one-row payload replaces a non-empty local set, and
the empty payload leaves it untouched. -/
theorem c4_snapshot_replacement_witness :
    handleInventoryUpdate "2024-01-01" (Payload.arr [[("Name", JSVal.str "Widget")]])
        [normalizeRow "2020-01-01" []]
      = [normalizeRow "2024-01-01" [("Name", JSVal.str "Widget")]]
  ∧ handleInventoryUpdate "2024-01-01" (Payload.arr [])
        [normalizeRow "2020-01-01" []]
      = [normalizeRow "2020-01-01" []] :=
  ⟨(c4_snapshot_replacement "2024-01-01" [[("Name", JSVal.str "Widget")]]
      [normalizeRow "2020-01-01" []]).1 (by decide),
   (c4_snapshot_replacement "2024-01-01" [[("Name", JSVal.str "Widget")]]
      [normalizeRow "2020-01-01" []]).2⟩

/-- Claim C5 (confirmed): the Source Reader never raises — it is a total
function of the observed source condition; a missing watched path yields the
empty sequence, and a decode failure is caught locally and also yields the
empty sequence, so neither error propagates to the caller. -/
theorem c5_reader_never_raises :
    readExcelData SourceState.missing = []
  ∧ ∀ msg, readExcelData (SourceState.decodeError msg) = [] :=
  ⟨rfl, fun _ => rfl⟩

/-- Claim C6 (confirmed): a non-sequence payload is rejected by the
`Array.isArray` guard and the client's local record set is left entirely
unchanged. -/
theorem c6_nonarray_rejected (today : String) (prev : List Product) :
    handleInventoryUpdate today Payload.nonArr prev = prev := rfl

/-- Claim C6, witness at a concrete non-empty local set. -/
theorem c6_nonarray_rejected_witness :
    handleInventoryUpdate "2024-01-01" Payload.nonArr [normalizeRow "2020-01-01" []]
      = [normalizeRow "2020-01-01" []] :=
  c6_nonarray_rejected "2024-01-01" [normalizeRow "2020-01-01" []]

/-- Claim C7 (confirmed): the status of every normalized record is
recomputed from the coerced quantity by `getStatusFromQuantity` at
normalization time, and a status-like column in the source row (any key
whose lowercased, trimmed form is the word status) is ignored: inserting
such a column anywhere in the row leaves the normalized record unchanged. -/
theorem c7_status_recomputed (today : String) (row pre post : RawRow) (k : String) (v : JSVal)
    (hk : jsKey k = "status") :
    (normalizeRow today row).status
      = getStatusFromQuantity ((normalizeRow today row).quantity)
  ∧ normalizeRow today (pre ++ (k, v) :: post) = normalizeRow today (pre ++ post) := by
  have hc : ∀ a : List String, a.contains "status" = false → keyMatches a k = false := by
    intro a ha
    simp only [keyMatches, hk]
    exact ha
  constructor
  · rfl
  · have hid := findValue_skip idAliases pre post k v (hc idAliases (by decide))
    have hname := findValue_skip nameAliases pre post k v (hc nameAliases (by decide))
    have hcat := findValue_skip categoryAliases pre post k v (hc categoryAliases (by decide))
    have hqty := findValue_skip quantityAliases pre post k v (hc quantityAliases (by decide))
    have hpr := findValue_skip priceAliases pre post k v (hc priceAliases (by decide))
    have hsup := findValue_skip supplierAliases pre post k v (hc supplierAliases (by decide))
    have hdate := findValue_skip dateAliases pre post k v (hc dateAliases (by decide))
    simp only [normalizeRow, hid, hname, hcat, hqty, hpr, hsup, hdate]

/-- Claim C7, witness: a concrete row with an extra Status column normalizes
exactly as without it, and its status field is the derived one. -/
theorem c7_status_recomputed_witness :
    ((normalizeRow "2024-01-01" [("QTY", JSVal.str "7")]).status
      = getStatusFromQuantity ((normalizeRow "2024-01-01" [("QTY", JSVal.str "7")]).quantity))
  ∧ normalizeRow "2024-01-01"
        ([("name", JSVal.str "Widget")] ++ (" Status ", JSVal.str "In Stock") :: [("QTY", JSVal.str "7")])
      = normalizeRow "2024-01-01" ([("name", JSVal.str "Widget")] ++ [("QTY", JSVal.str "7")]) :=
  c7_status_recomputed "2024-01-01" [("QTY", JSVal.str "7")]
    [("name", JSVal.str "Widget")] [("QTY", JSVal.str "7")] " Status " (JSVal.str "In Stock")
    (by decide)

/-- Claim C8, counterexample: a quantity cell holding the string minus-5
normalizes to the negative number -5, and a price cell holding a truthy
non-numeric string normalizes to NaN (`none`), so the invariant quantity ≥ 0
and price ≥ 0 fails. -/
theorem c8_nonneg_counterexample :
    (normalizeRow "2024-01-01"
        [("quantity", JSVal.str "-5"), ("price", JSVal.str "oops")]).quantity = some (-5 : ℚ)
  ∧ ((-5 : ℚ) < 0)
  ∧ (normalizeRow "2024-01-01"
        [("quantity", JSVal.str "-5"), ("price", JSVal.str "oops")]).price = none := by decide

/-- Claim C8 (amended): the normalized quantity and price are nonnegative
numbers provided every truthy matched quantity and price cell converts under
JS `Number` to a nonnegative value; without that proviso the coercion can
produce negative numbers (cell "-5") or NaN (truthy non-numeric cell), as
the counterexample shows. Absent or falsy cells still give 0. -/
theorem c8_nonneg_conditional (today : String) (row : RawRow)
    (hq : ∀ v, findValue quantityAliases row = some v → v.truthy = true →
        ∃ x, jsNumber v = some x ∧ 0 ≤ x)
    (hp : ∀ v, findValue priceAliases row = some v → v.truthy = true →
        ∃ x, jsNumber v = some x ∧ 0 ≤ x) :
    (∃ x, (normalizeRow today row).quantity = some x ∧ 0 ≤ x)
  ∧ (∃ x, (normalizeRow today row).price = some x ∧ 0 ≤ x) := by
  constructor
  · rw [normalizeRow_quantity, coerceNum_eq]
    cases hfv : findValue quantityAliases row with
    | none => exact ⟨0, rfl, le_refl 0⟩
    | some v =>
        by_cases ht : v.truthy
        · obtain ⟨x, hx, hx0⟩ := hq v hfv ht
          exact ⟨x, by simp [ht, hx], hx0⟩
        · exact ⟨0, by simp [ht], le_refl 0⟩
  · rw [normalizeRow_price, coerceNum_eq]
    cases hfv : findValue priceAliases row with
    | none => exact ⟨0, rfl, le_refl 0⟩
    | some v =>
        by_cases ht : v.truthy
        · obtain ⟨x, hx, hx0⟩ := hp v hfv ht
          exact ⟨x, by simp [ht, hx], hx0⟩
        · exact ⟨0, by simp [ht], le_refl 0⟩

/-- Claim C8, witness: a row whose quantity cell is the numeric string 75
and has no price cell satisfies the proviso, and both coerced fields are
nonnegative. -/
theorem c8_nonneg_conditional_witness :
    (∃ x, (normalizeRow "2024-01-01" [("qty", JSVal.str "75")]).quantity = some x ∧ 0 ≤ x)
  ∧ (∃ x, (normalizeRow "2024-01-01" [("qty", JSVal.str "75")]).price = some x ∧ 0 ≤ x) :=
  c8_nonneg_conditional "2024-01-01" [("qty", JSVal.str "75")]
    (by
      intro v hv htv
      rw [show findValue quantityAliases [("qty", JSVal.str "75")]
            = some (JSVal.str "75") from by decide] at hv
      injection hv with h
      subst h
      exact ⟨75, by decide, by decide⟩)
    (by
      intro v hv htv
      rw [show findValue priceAliases [("qty", JSVal.str "75")] = none from by decide] at hv
      cases hv)

/-- Claim C9, counterexample: the client's connection state is the single
boolean isSynced, and the connect-error and disconnect handlers write the
same value to it from every state, so the Error and Disconnected conditions
are not distinguishable in the client's state. -/
theorem c9_error_disconnect_counterexample :
    stepIsSynced SocketEvent.connectError true = stepIsSynced SocketEvent.disconnect true
  ∧ stepIsSynced SocketEvent.connectError false = stepIsSynced SocketEvent.disconnect false := by
  decide

/-- Claim C9 (amended): the client's connection state is the two-valued
boolean isSynced, driven solely by the channel lifecycle events: connect
sets it true, while connect-error and disconnect both set it false, leaving
error and disconnection indistinguishable. -/
theorem c9_issynced_transitions :
    ∀ b, stepIsSynced SocketEvent.connect b = true
  ∧ stepIsSynced SocketEvent.connectError b = false
  ∧ stepIsSynced SocketEvent.disconnect b = false := by decide

/-- Claim C9, witness at the connected state. -/
theorem c9_issynced_transitions_witness :
    stepIsSynced SocketEvent.connect true = true
  ∧ stepIsSynced SocketEvent.connectError true = false
  ∧ stepIsSynced SocketEvent.disconnect true = false :=
  c9_issynced_transitions true

/-- Claim C10 (confirmed): the string-field defaults apply to every falsy
matched value, not only to absent fields — an empty-string name, category or
supplier cell yields the documented default, an id cell holding the number 0
or the empty string yields the empty id, and an empty-string dateAdded cell
yields the current date. -/
theorem c10_falsy_defaults (today : String) (row : RawRow) :
    (findValue nameAliases row = some (JSVal.str "") →
      (normalizeRow today row).name = "Unknown Product")
  ∧ (findValue categoryAliases row = some (JSVal.str "") →
      (normalizeRow today row).category = "Uncategorized")
  ∧ (findValue supplierAliases row = some (JSVal.str "") →
      (normalizeRow today row).supplier = "Unknown Supplier")
  ∧ (findValue idAliases row = some (JSVal.num 0) →
      (normalizeRow today row).id = "")
  ∧ (findValue idAliases row = some (JSVal.str "") →
      (normalizeRow today row).id = "")
  ∧ (findValue dateAliases row = some (JSVal.str "") →
      (normalizeRow today row).dateAdded = today) := by
  have hstr : (JSVal.str "").truthy = false := by decide
  have hnum : (JSVal.num 0).truthy = false := by decide
  refine ⟨fun h => ?_, fun h => ?_, fun h => ?_, fun h => ?_, fun h => ?_, fun h => ?_⟩
  · rw [normalizeRow_name, h]; decide
  · rw [normalizeRow_category, h]; decide
  · rw [normalizeRow_supplier, h]; decide
  · rw [normalizeRow_id, h]; decide
  · rw [normalizeRow_id, h]; decide
  · rw [normalizeRow_dateAdded, h]
    simp [coerceStr, jsOr, hstr, jsString]

/-- Claim C10, witness on concrete one-cell rows exercising each falsy
default. -/
theorem c10_falsy_defaults_witness :
    (normalizeRow "2024-01-01" [("name", JSVal.str "")]).name = "Unknown Product"
  ∧ (normalizeRow "2024-01-01" [("category", JSVal.str "")]).category = "Uncategorized"
  ∧ (normalizeRow "2024-01-01" [("supplier", JSVal.str "")]).supplier = "Unknown Supplier"
  ∧ (normalizeRow "2024-01-01" [("id", JSVal.num 0)]).id = ""
  ∧ (normalizeRow "2024-01-01" [("pid", JSVal.str "")]).id = ""
  ∧ (normalizeRow "2024-01-01" [("date", JSVal.str "")]).dateAdded = "2024-01-01" :=
  ⟨(c10_falsy_defaults "2024-01-01" [("name", JSVal.str "")]).1 (by decide),
   (c10_falsy_defaults "2024-01-01" [("category", JSVal.str "")]).2.1 (by decide),
   (c10_falsy_defaults "2024-01-01" [("supplier", JSVal.str "")]).2.2.1 (by decide),
   (c10_falsy_defaults "2024-01-01" [("id", JSVal.num 0)]).2.2.2.1 (by decide),
   (c10_falsy_defaults "2024-01-01" [("pid", JSVal.str "")]).2.2.2.2.1 (by decide),
   (c10_falsy_defaults "2024-01-01" [("date", JSVal.str "")]).2.2.2.2.2 (by decide)⟩

/-- Claim C5, witness at a concrete decode-failure message. -/
theorem c5_reader_never_raises_witness :
    readExcelData SourceState.missing = []
  ∧ readExcelData (SourceState.decodeError "corrupt workbook") = [] :=
  ⟨c5_reader_never_raises.1, c5_reader_never_raises.2 "corrupt workbook"⟩
